import Mathlib

/-!
Shallow embedding of the seL4 libsel4vm virtual GIC distributor
(`src/libsel4vm/src/arch/arm/vgic/vdist.h` and `virq.h`).

Machine words are modelled as `Nat` with explicit 32-bit masking where the C
code relies on 32-bit overflow or complement.  Register banks become total
functions from indices to words; the C structs `gic_dist_map`, `vgic_t`,
`irq_queue` and `virq_handle` become Lean structures of the same shape.
-/

set_option maxRecDepth 100000

namespace VGicDist

/-! ### Constants from `virq.h` -/

def MAX_VIRQS : Nat := 200
def NUM_SGI_VIRQS : Nat := 16
def NUM_PPI_VIRQS : Nat := 16
def GIC_SPI_IRQ_MIN : Nat := NUM_SGI_VIRQS + NUM_PPI_VIRQS
def NUM_LIST_REGS : Nat := 4
def MAX_IRQ_QUEUE_LEN : Nat := 64

/-- `IRQ_QUEUE_NEXT(_i)` from virq.h: `((_i) + 1) & (MAX_IRQ_QUEUE_LEN - 1)`. -/
def IRQ_QUEUE_NEXT (i : Nat) : Nat := (i + 1) &&& (MAX_IRQ_QUEUE_LEN - 1)

/-! ### Register offsets.

Modelled from the spec: the `GIC_DIST_*` offset constants live in a header
that is not part of the sources; their values are the architectural GICv2
distributor map summarised in spec section 4.D (and the literal offsets
`0x280`, `0xD00`, `0xFC0`, reserved ranges appearing in `vdist.h` itself). -/

def GIC_DIST_CTLR : Nat := 0x000
def GIC_DIST_TYPER : Nat := 0x004
def GIC_DIST_IIDR : Nat := 0x008
def GIC_DIST_IGROUPR0 : Nat := 0x080
def GIC_DIST_IGROUPR1 : Nat := 0x084
def GIC_DIST_IGROUPRN : Nat := 0x0FC
def GIC_DIST_ISENABLER0 : Nat := 0x100
def GIC_DIST_ISENABLER1 : Nat := 0x104
def GIC_DIST_ISENABLERN : Nat := 0x17C
def GIC_DIST_ICENABLER0 : Nat := 0x180
def GIC_DIST_ICENABLER1 : Nat := 0x184
def GIC_DIST_ICENABLERN : Nat := 0x1FC
def GIC_DIST_ISPENDR0 : Nat := 0x200
def GIC_DIST_ISPENDR1 : Nat := 0x204
def GIC_DIST_ISPENDRN : Nat := 0x27C
def GIC_DIST_ICPENDR0 : Nat := 0x280
def GIC_DIST_ICPENDR1 : Nat := 0x284
def GIC_DIST_ICPENDRN : Nat := 0x2FC
def GIC_DIST_ISACTIVER0 : Nat := 0x300
def GIC_DIST_ISACTIVER1 : Nat := 0x304
def GIC_DIST_ISACTIVERN : Nat := 0x37C
def GIC_DIST_ICACTIVER0 : Nat := 0x380
def GIC_DIST_ICACTIVER1 : Nat := 0x384
def GIC_DIST_ICACTIVERN : Nat := 0x3FC
def GIC_DIST_IPRIORITYR0 : Nat := 0x400
def GIC_DIST_IPRIORITYR7 : Nat := 0x41C
def GIC_DIST_IPRIORITYR8 : Nat := 0x420
def GIC_DIST_IPRIORITYRN : Nat := 0x7F8
def GIC_DIST_ITARGETSR0 : Nat := 0x800
def GIC_DIST_ITARGETSR7 : Nat := 0x81C
def GIC_DIST_ITARGETSR8 : Nat := 0x820
def GIC_DIST_ITARGETSRN : Nat := 0xBF8
def GIC_DIST_ICFGR0 : Nat := 0xC00
def GIC_DIST_ICFGRN : Nat := 0xCFC
def GIC_DIST_SGIR : Nat := 0xF00
def GIC_DIST_CPENDSGIR0 : Nat := 0xF10
def GIC_DIST_CPENDSGIRN : Nat := 0xF1C
def GIC_DIST_SPENDSGIR0 : Nat := 0xF20
def GIC_DIST_SPENDSGIRN : Nat := 0xF2C

def GIC_ENABLED : Nat := 1

def GIC_DIST_SGI_TARGET_LIST_FILTER_MASK : Nat := 0x03000000
def GIC_DIST_SGI_TARGET_LIST_FILTER_SHIFT : Nat := 24
def GIC_DIST_SGI_CPU_TARGET_LIST_MASK : Nat := 0x00FF0000
def GIC_DIST_SGI_CPU_TARGET_LIST_SHIFT : Nat := 16
def GIC_DIST_SGI_INTID_MASK : Nat := 0xF
def GIC_DIST_SGI_TARGET_LIST_SPEC : Nat := 0
def GIC_DIST_SGI_TARGET_LIST_OTHERS : Nat := 1
def GIC_DIST_SGI_TARGET_SELF : Nat := 2

/-! ### Word-level helpers -/

/-- Bitwise complement restricted to 32 bits: `~x` on a `uint32_t`. -/
def not32 (x : Nat) : Nat := x ^^^ 0xFFFFFFFF

/-- `IRQ_BIT(irq)`: `1U << ((irq) % 32)`. -/
def IRQ_BIT (irq : Nat) : Nat := 1 <<< (irq % 32)

/-- `IRQ_IDX(irq)`: `(irq) / 32`. -/
def IRQ_IDX (irq : Nat) : Nat := irq / 32

/-- Pointwise function update used to model assignment to an array cell. -/
def updf {α : Type} (f : Nat → α) (i : Nat) (v : α) : Nat → α :=
  fun j => if j = i then v else f j

/-! ### Data model -/

/-- `struct virq_handle` from virq.h.  The `ack` function pointer and opaque
`token` are collapsed into one abstract `token : Nat` identifying the
handler; the core never inspects them. -/
structure VirqHandle where
  virq : Nat
  token : Nat
deriving DecidableEq, Repr

/-- `struct gic_dist_map` (vGIC distributor shadow).

Modelled from the spec: the struct itself is declared in a header outside the
sources; spec section 3 lists its banks.  Per-vCPU banked words are functions
of the vCPU id; global bank arrays are functions of the array cell index, and
are indexed exactly as the source indexes them: the bit accessors use
`IRQ_IDX(irq) = irq / 32`, while the MMIO read/write cases use
`GIC_DIST_REGN(offset, REG1) = (offset - REG1) / 4` — for a bank whose
register 1 sits right after the banked register 0, the architectural register
`n ≥ 1` is cell `n - 1` on the MMIO side but cell `n` on the accessor side
(the off-by-one the C6 analysis exhibits). -/
structure GicDistMap where
  enable : Nat
  ic_type : Nat
  dist_ident : Nat
  irq_group0 : Nat → Nat
  irq_group : Nat → Nat
  enable_set0 : Nat → Nat
  enable_set : Nat → Nat
  enable_clr0 : Nat → Nat
  enable_clr : Nat → Nat
  pending_set0 : Nat → Nat
  pending_set : Nat → Nat
  pending_clr0 : Nat → Nat
  pending_clr : Nat → Nat
  active0 : Nat → Nat
  active : Nat → Nat
  active_clr0 : Nat → Nat
  active_clr : Nat → Nat
  priority0 : Nat → Nat → Nat
  priority : Nat → Nat
  targets0 : Nat → Nat → Nat
  targets : Nat → Nat
  config : Nat → Nat
  spi : Nat → Nat
  sgi_control : Nat
  sgi_pending_clr : Nat → Nat → Nat
  sgi_pending_set : Nat → Nat → Nat
  periph_id : Nat → Nat

/-- `struct irq_queue` from virq.h: circular buffer with head and tail. -/
structure IrqQueue where
  irqs : Nat → Option VirqHandle
  head : Nat
  tail : Nat

/-- `struct vgic` (`vgic_t`) from virq.h with the distributor registers
inlined as `dist`. -/
structure Vgic where
  lr_shadow : Nat → Nat → Option VirqHandle
  irq_queue : Nat → IrqQueue
  sgi_ppi_irq : Nat → Nat → Option VirqHandle
  virqs : List (Option VirqHandle)
  dist : GicDistMap

/-- The VM seen by the fault handlers: vCPU count and online state.
Modelled from the spec: `vcpu->vm->num_vcpus` and `is_vcpu_online` are
external VM-control interfaces (spec section 6). -/
structure VM where
  num_vcpus : Nat
  online : Nat → Bool

/-! ### Distributor bit accessors (vdist.h lines 33-149) -/

def set_sgi_ppi_pending (d : GicDistMap) (irq : Nat) (v : Bool) (vcpu_id : Nat) : GicDistMap :=
  if v then
    { d with pending_set0 := updf d.pending_set0 vcpu_id (d.pending_set0 vcpu_id ||| IRQ_BIT irq),
             pending_clr0 := updf d.pending_clr0 vcpu_id (d.pending_clr0 vcpu_id ||| IRQ_BIT irq) }
  else
    { d with pending_set0 := updf d.pending_set0 vcpu_id (d.pending_set0 vcpu_id &&& not32 (IRQ_BIT irq)),
             pending_clr0 := updf d.pending_clr0 vcpu_id (d.pending_clr0 vcpu_id &&& not32 (IRQ_BIT irq)) }

def set_spi_pending (d : GicDistMap) (irq : Nat) (v : Bool) : GicDistMap :=
  if v then
    { d with pending_set := updf d.pending_set (IRQ_IDX irq) (d.pending_set (IRQ_IDX irq) ||| IRQ_BIT irq),
             pending_clr := updf d.pending_clr (IRQ_IDX irq) (d.pending_clr (IRQ_IDX irq) ||| IRQ_BIT irq) }
  else
    { d with pending_set := updf d.pending_set (IRQ_IDX irq) (d.pending_set (IRQ_IDX irq) &&& not32 (IRQ_BIT irq)),
             pending_clr := updf d.pending_clr (IRQ_IDX irq) (d.pending_clr (IRQ_IDX irq) &&& not32 (IRQ_BIT irq)) }

def set_pending (d : GicDistMap) (irq : Nat) (v : Bool) (vcpu_id : Nat) : GicDistMap :=
  if irq < GIC_SPI_IRQ_MIN then set_sgi_ppi_pending d irq v vcpu_id
  else set_spi_pending d irq v

def is_sgi_ppi_pending (d : GicDistMap) (irq : Nat) (vcpu_id : Nat) : Bool :=
  d.pending_set0 vcpu_id &&& IRQ_BIT irq != 0

def is_spi_pending (d : GicDistMap) (irq : Nat) : Bool :=
  d.pending_set (IRQ_IDX irq) &&& IRQ_BIT irq != 0

def is_pending (d : GicDistMap) (irq : Nat) (vcpu_id : Nat) : Bool :=
  if irq < GIC_SPI_IRQ_MIN then is_sgi_ppi_pending d irq vcpu_id
  else is_spi_pending d irq

def set_sgi_ppi_enable (d : GicDistMap) (irq : Nat) (v : Bool) (vcpu_id : Nat) : GicDistMap :=
  if v then
    { d with enable_set0 := updf d.enable_set0 vcpu_id (d.enable_set0 vcpu_id ||| IRQ_BIT irq),
             enable_clr0 := updf d.enable_clr0 vcpu_id (d.enable_clr0 vcpu_id ||| IRQ_BIT irq) }
  else
    { d with enable_set0 := updf d.enable_set0 vcpu_id (d.enable_set0 vcpu_id &&& not32 (IRQ_BIT irq)),
             enable_clr0 := updf d.enable_clr0 vcpu_id (d.enable_clr0 vcpu_id &&& not32 (IRQ_BIT irq)) }

def set_spi_enable (d : GicDistMap) (irq : Nat) (v : Bool) : GicDistMap :=
  if v then
    { d with enable_set := updf d.enable_set (IRQ_IDX irq) (d.enable_set (IRQ_IDX irq) ||| IRQ_BIT irq),
             enable_clr := updf d.enable_clr (IRQ_IDX irq) (d.enable_clr (IRQ_IDX irq) ||| IRQ_BIT irq) }
  else
    { d with enable_set := updf d.enable_set (IRQ_IDX irq) (d.enable_set (IRQ_IDX irq) &&& not32 (IRQ_BIT irq)),
             enable_clr := updf d.enable_clr (IRQ_IDX irq) (d.enable_clr (IRQ_IDX irq) &&& not32 (IRQ_BIT irq)) }

def set_enable (d : GicDistMap) (irq : Nat) (v : Bool) (vcpu_id : Nat) : GicDistMap :=
  if irq < GIC_SPI_IRQ_MIN then set_sgi_ppi_enable d irq v vcpu_id
  else set_spi_enable d irq v

def is_sgi_ppi_enabled (d : GicDistMap) (irq : Nat) (vcpu_id : Nat) : Bool :=
  d.enable_set0 vcpu_id &&& IRQ_BIT irq != 0

def is_spi_enabled (d : GicDistMap) (irq : Nat) : Bool :=
  d.enable_set (IRQ_IDX irq) &&& IRQ_BIT irq != 0

def is_enabled (d : GicDistMap) (irq : Nat) (vcpu_id : Nat) : Bool :=
  if irq < GIC_SPI_IRQ_MIN then is_sgi_ppi_enabled d irq vcpu_id
  else is_spi_enabled d irq

def is_sgi_ppi_active (d : GicDistMap) (irq : Nat) (vcpu_id : Nat) : Bool :=
  d.active0 vcpu_id &&& IRQ_BIT irq != 0

def is_spi_active (d : GicDistMap) (irq : Nat) : Bool :=
  d.active (IRQ_IDX irq) &&& IRQ_BIT irq != 0

def is_active (d : GicDistMap) (irq : Nat) (vcpu_id : Nat) : Bool :=
  if irq < GIC_SPI_IRQ_MIN then is_sgi_ppi_active d irq vcpu_id
  else is_spi_active d irq

/-- Modelled from the spec: `gic_dist_enable` (external helper) sets the CTLR
enable word. -/
def gic_dist_enable (d : GicDistMap) : GicDistMap := { d with enable := GIC_ENABLED }

/-- Modelled from the spec: `gic_dist_disable` clears the CTLR enable word. -/
def gic_dist_disable (d : GicDistMap) : GicDistMap := { d with enable := 0 }

/-- Modelled from the spec: `gic_dist_is_enabled` tests the CTLR enable word. -/
def gic_dist_is_enabled (d : GicDistMap) : Bool := d.enable != 0

def vgic_dist_enable (d : GicDistMap) : Int × GicDistMap := (0, gic_dist_enable d)

def vgic_dist_disable (d : GicDistMap) : Int × GicDistMap := (0, gic_dist_disable d)

/-! ### VIRQ handler table (virq.h lines 73-131, 161-177) -/

/-- `virq_get_sgi_ppi`: indexed lookup in the per-vCPU SGI/PPI table. -/
def virq_get_sgi_ppi (vgic : Vgic) (vcpu_id : Nat) (virq : Nat) : Option VirqHandle :=
  vgic.sgi_ppi_irq vcpu_id virq

/-- Linear scan of `vgic->virqs` in `virq_find_spi_irq_data`: return the
first non-null entry whose `virq` field equals the query. -/
def spiFind : List (Option VirqHandle) → Nat → Option VirqHandle
  | [], _ => none
  | none :: rest, v => spiFind rest v
  | some h :: rest, v => if h.virq = v then some h else spiFind rest v

/-- `virq_find_spi_irq_data` from virq.h. -/
def virq_find_spi_irq_data (vgic : Vgic) (virq : Nat) : Option VirqHandle :=
  spiFind vgic.virqs virq

/-- `virq_find_irq_data` from virq.h. -/
def virq_find_irq_data (vgic : Vgic) (vcpu_id : Nat) (virq : Nat) : Option VirqHandle :=
  if virq < GIC_SPI_IRQ_MIN then virq_get_sgi_ppi vgic vcpu_id virq
  else virq_find_spi_irq_data vgic virq

/-- The slot-filling loop of `virq_spi_add`: store the handler in the first
`NULL` slot; `none` signals that no slot was free (return -1). -/
def spiAdd : List (Option VirqHandle) → VirqHandle → Option (List (Option VirqHandle))
  | [], _ => none
  | none :: rest, h => some (some h :: rest)
  | some x :: rest, h => (spiAdd rest h).map (fun t => some x :: t)

/-- `virq_spi_add` from virq.h. -/
def virq_spi_add (vgic : Vgic) (virq_data : VirqHandle) : Int × Vgic :=
  match spiAdd vgic.virqs virq_data with
  | some t => (0, { vgic with virqs := t })
  | none => (-1, vgic)

/-- `virq_sgi_ppi_add` from virq.h. -/
def virq_sgi_ppi_add (vcpu_id : Nat) (vgic : Vgic) (virq_data : VirqHandle) : Int × Vgic :=
  if vgic.sgi_ppi_irq vcpu_id virq_data.virq ≠ none then (-1, vgic)
  else
    let row := updf (vgic.sgi_ppi_irq vcpu_id) virq_data.virq (some virq_data)
    (0, { vgic with sgi_ppi_irq := updf vgic.sgi_ppi_irq vcpu_id row })

/-- `virq_add` from virq.h. -/
def virq_add (vcpu_id : Nat) (vgic : Vgic) (virq_data : VirqHandle) : Int × Vgic :=
  if virq_data.virq < GIC_SPI_IRQ_MIN then virq_sgi_ppi_add vcpu_id vgic virq_data
  else virq_spi_add vgic virq_data

/-- `vgic_shadow_irq` from virq.h. -/
def vgic_shadow_irq (vgic : Vgic) (i : Nat) (irq : Option VirqHandle) (vcpu_id : Nat) : Vgic :=
  let row := updf (vgic.lr_shadow vcpu_id) i irq
  { vgic with lr_shadow := updf vgic.lr_shadow vcpu_id row }

/-! ### Per-vCPU overflow queue (virq.h lines 134-159) -/

/-- `vgic_irq_enqueue` from virq.h. -/
def vgic_irq_enqueue (vgic : Vgic) (vcpu_id : Nat) (irq : VirqHandle) : Int × Vgic :=
  let q := vgic.irq_queue vcpu_id
  if IRQ_QUEUE_NEXT q.tail = q.head then (-1, vgic)
  else
    let q2 : IrqQueue := { q with irqs := updf q.irqs q.tail (some irq), tail := IRQ_QUEUE_NEXT q.tail }
    (0, { vgic with irq_queue := updf vgic.irq_queue vcpu_id q2 })

/-- `vgic_irq_dequeue` from virq.h. -/
def vgic_irq_dequeue (vgic : Vgic) (vcpu_id : Nat) : Option VirqHandle × Vgic :=
  let q := vgic.irq_queue vcpu_id
  if q.head ≠ q.tail then
    let q2 : IrqQueue := { q with head := IRQ_QUEUE_NEXT q.head }
    (q.irqs q.head, { vgic with irq_queue := updf vgic.irq_queue vcpu_id q2 })
  else (none, vgic)

/-- `vgic_find_empty_list_reg` from virq.h: lowest free LR index, else -1. -/
def vgic_find_empty_list_reg (vgic : Vgic) (vcpu_id : Nat) : Int :=
  match (List.range NUM_LIST_REGS).find? (fun i => (vgic.lr_shadow vcpu_id i).isNone) with
  | some i => (i : Int)
  | none => -1

/-- Modelled from the spec: `vgic_vcpu_load_list_reg` (declared in virq.h,
defined outside the sources) programs hardware list register `idx` and
records the handler in `lr_shadow` (spec section 4.E step 6), returning 0. -/
def vgic_vcpu_load_list_reg (vgic : Vgic) (vcpu_id : Nat) (idx : Nat) (irq : VirqHandle) :
    Int × Vgic :=
  (0, vgic_shadow_irq vgic idx (some irq) vcpu_id)

/-! ### Write-side semantic operations (vdist.h lines 165-247) -/

/-- `vgic_dist_enable_irq` from vdist.h.  The `virq_ack` callback is an
external effect on the IRQ source and does not touch any state modelled
here. -/
def vgic_dist_enable_irq (vgic : Vgic) (vcpu_id : Nat) (irq : Nat) : Int × Vgic :=
  let vgic := { vgic with dist := set_enable vgic.dist irq true vcpu_id }
  (0, vgic)

/-- `vgic_dist_disable_irq` from vdist.h: disabling an SGI is ignored. -/
def vgic_dist_disable_irq (vgic : Vgic) (vcpu_id : Nat) (irq : Nat) : Int × Vgic :=
  if NUM_SGI_VIRQS ≤ irq then
    (0, { vgic with dist := set_enable vgic.dist irq false vcpu_id })
  else (0, vgic)

/-- `vgic_dist_set_pending_irq` from vdist.h. -/
def vgic_dist_set_pending_irq (vgic : Vgic) (vcpu_id : Nat) (irq : Nat) : Int × Vgic :=
  match virq_find_irq_data vgic vcpu_id irq with
  | none => (-1, vgic)
  | some virq_data =>
    if ¬ (gic_dist_is_enabled vgic.dist = true ∧ is_enabled vgic.dist irq vcpu_id = true) then
      (-1, vgic)
    else if is_pending vgic.dist virq_data.virq vcpu_id then (0, vgic)
    else
      let vgic := { vgic with dist := set_pending vgic.dist virq_data.virq true vcpu_id }
      let eq := vgic_irq_enqueue vgic vcpu_id virq_data
      if eq.1 ≠ 0 then (-1, eq.2)
      else
        let vgic := eq.2
        let idx := vgic_find_empty_list_reg vgic vcpu_id
        if idx < 0 then (0, vgic)
        else
          match vgic_irq_dequeue vgic vcpu_id with
          | (none, vgic) => (0, vgic)
          | (some virq, vgic) => vgic_vcpu_load_list_reg vgic vcpu_id idx.toNat virq

/-- `vgic_dist_clr_pending_irq` from vdist.h. -/
def vgic_dist_clr_pending_irq (vgic : Vgic) (vcpu_id : Nat) (irq : Nat) : Int × Vgic :=
  (0, { vgic with dist := set_pending vgic.dist irq false vcpu_id })

/-- Modelled from the spec: `vm_inject_irq` (the public injection API,
outside the sources) is a synonym for `vgic_dist_set_pending_irq`
(spec section 4.F). -/
def vm_inject_irq (vgic : Vgic) (vcpu_id : Nat) (irq : Nat) : Int × Vgic :=
  vgic_dist_set_pending_irq vgic vcpu_id irq

/-! ### MMIO fault handlers (vdist.h lines 249-592)

A fault is represented by its decoded components: `offset` within the
distributor window (`fault_get_address(fault) - d->pstart`), the write
`data` (`fault_get_data`) and the byte-lane `mask` (`fault_get_data_mask`).
`advance_fault` and `ignore_fault` are external and always succeed
(spec section 6), so the handlers always return `FAULT_HANDLED`. -/

inductive FaultResult where
  | handled
  | error
deriving DecidableEq, Repr

/-- `fault_emulate(fault, prev)` (spec section 6): `(prev & ~mask) | (data & mask)`. -/
def fault_emulate (data mask prev : Nat) : Nat :=
  (prev &&& not32 mask) ||| (data &&& mask)

/-- `GIC_DIST_REGN(offset, reg)` from vdist.h: `(offset - reg) / sizeof(uint32_t)`,
the array cell index of `offset` relative to the register at offset `base`. -/
def bankIdx (offset base : Nat) : Nat := (offset - base) / 4

/-- Outcome of `handle_vgic_dist_read_fault`: the fault result, whether the
fault was advanced (vs. ignored for an unknown offset), the value stored
into the fault data register by `fault_set_data`, and the (unchanged)
vGIC. -/
structure ReadOut where
  res : FaultResult
  advanced : Bool
  data_out : Option Nat
  vgic : Vgic

/-- The switch of `handle_vgic_dist_read_fault` over offset ranges
(`RANGE32(a, b)` covers bytes `a .. b+3`) as an if-chain in the source's
case order; `some reg` is the word selected by the matching case, `none`
the `default` (unknown offset) case. -/
def readPick (d : GicDistMap) (vcpu_id offset : Nat) : Option Nat :=
    if offset ≤ 0x003 then some d.enable
    else if offset ≤ 0x007 then some d.ic_type
    else if offset ≤ 0x00B then some d.dist_ident
    else if offset ≤ 0x01F then some 0
    else if offset ≤ 0x03F then some 0
    else if offset ≤ 0x07F then some 0
    else if offset ≤ 0x083 then some (d.irq_group0 vcpu_id)
    else if offset ≤ 0x0FF then some (d.irq_group (bankIdx offset GIC_DIST_IGROUPR1))
    else if offset ≤ 0x103 then some (d.enable_set0 vcpu_id)
    else if offset ≤ 0x17F then some (d.enable_set (bankIdx offset GIC_DIST_ISENABLER1))
    else if offset ≤ 0x183 then some (d.enable_clr0 vcpu_id)
    else if offset ≤ 0x1FF then some (d.enable_clr (bankIdx offset GIC_DIST_ICENABLER1))
    else if offset ≤ 0x203 then some (d.pending_set0 vcpu_id)
    else if offset ≤ 0x27F then some (d.pending_set (bankIdx offset GIC_DIST_ISPENDR1))
    else if offset ≤ 0x283 then some (d.pending_clr0 vcpu_id)
    else if offset ≤ 0x2FF then some (d.pending_clr (bankIdx offset GIC_DIST_ICPENDR1))
    else if offset ≤ 0x303 then some (d.active0 vcpu_id)
    else if offset ≤ 0x37F then some (d.active (bankIdx offset GIC_DIST_ISACTIVER1))
    else if offset ≤ 0x383 then some (d.active_clr0 vcpu_id)
    else if offset ≤ 0x3FF then some (d.active_clr (bankIdx offset GIC_DIST_ICACTIVER1))
    else if offset ≤ 0x41F then some (d.priority0 vcpu_id (bankIdx offset GIC_DIST_IPRIORITYR0))
    else if offset ≤ 0x7FB then some (d.priority (bankIdx offset GIC_DIST_IPRIORITYR8))
    else if offset ≤ 0x7FF then some 0
    else if offset ≤ 0x81F then some (d.targets0 vcpu_id (bankIdx offset GIC_DIST_ITARGETSR0))
    else if offset ≤ 0xBFB then some (d.targets (bankIdx offset GIC_DIST_ITARGETSR8))
    else if offset ≤ 0xBFF then some 0
    else if offset ≤ 0xCFF then some (d.config (bankIdx offset GIC_DIST_ICFGR0))
    else if offset ≤ 0xDE7 then some (d.spi (bankIdx offset 0xD00))
    else if offset ≤ 0xEFF then some 0
    else if offset ≤ 0xF03 then some d.sgi_control
    else if offset ≤ 0xF0F then some 0
    else if offset ≤ 0xF1F then some (d.sgi_pending_clr vcpu_id (bankIdx offset GIC_DIST_CPENDSGIR0))
    else if offset ≤ 0xF2F then some (d.sgi_pending_set vcpu_id (bankIdx offset GIC_DIST_SPENDSGIR0))
    else if offset ≤ 0xFBF then some 0
    else if offset ≤ 0xFFB then some (d.periph_id (bankIdx offset 0xFC0))
    else none

/-- `handle_vgic_dist_read_fault` from vdist.h: select the word with
`readPick`, mask it, store it via `fault_set_data` and advance the fault;
an unknown offset is logged and the fault ignored instead. -/
def handle_vgic_dist_read_fault (vgic : Vgic) (vcpu_id offset mask : Nat) : ReadOut :=
  match readPick vgic.dist vcpu_id offset with
  | some reg => { res := .handled, advanced := true, data_out := some (reg &&& mask), vgic := vgic }
  | none => { res := .handled, advanced := false, data_out := none, vgic := vgic }

/-- Ascending iteration over the set bits of `data`, the effect of the
source's `while (data) { irq = CTZ(data); data &= ~(1U << irq); ... }`
loops (CTZ visits the set bits of a 32-bit word in ascending order). -/
def forBits {σ : Type} (data : Nat) (f : Nat → σ → σ) (s : σ) : σ :=
  (List.range 32).foldl (fun acc b => if data.testBit b then f b acc else acc) s

/-- The SGIR fan-out loop (vdist.h lines 555-561): walk the vCPU indices,
skipping those not in the target list or offline, injecting `virq` into the
rest; the second component records each `vm_inject_irq` call. -/
def sgirDispatch (vm : VM) (virq : Nat) (target_list : Nat) (vgic : Vgic) :
    Vgic × List (Nat × Nat) :=
  (List.range vm.num_vcpus).foldl
    (fun acc i =>
      if target_list.testBit i && vm.online i then
        ((vm_inject_irq acc.1 i virq).2, acc.2 ++ [(i, virq)])
      else acc)
    (vgic, [])

/-- Outcome of `handle_vgic_dist_write_fault`: fault result, post-state, and
the trace of `vm_inject_irq(target, virq)` calls made by the SGIR case. -/
structure WriteOut where
  res : FaultResult
  vgic : Vgic
  injections : List (Nat × Nat)

/-- The SGIR case of `handle_vgic_dist_write_fault` (vdist.h lines 532-562):
decode the target-list filter mode (bits 25:24) and SGI number (bits 3:0),
compute the 16-bit target list (`target_list` is a `uint16_t` in the source,
hence the `% 0x10000` truncations of the int-typed expressions assigned to
it), and fan out; an unknown filter mode jumps straight to `ignore_fault`
with no injection. -/
def writeSGIR (vm : VM) (vcpu_id data : Nat) (vgic : Vgic) : Vgic × List (Nat × Nat) :=
  if (data &&& GIC_DIST_SGI_TARGET_LIST_FILTER_MASK) >>> GIC_DIST_SGI_TARGET_LIST_FILTER_SHIFT
      = GIC_DIST_SGI_TARGET_LIST_SPEC then
    sgirDispatch vm (data &&& GIC_DIST_SGI_INTID_MASK)
      ((data &&& GIC_DIST_SGI_CPU_TARGET_LIST_MASK) >>> GIC_DIST_SGI_CPU_TARGET_LIST_SHIFT) vgic
  else if (data &&& GIC_DIST_SGI_TARGET_LIST_FILTER_MASK) >>> GIC_DIST_SGI_TARGET_LIST_FILTER_SHIFT
      = GIC_DIST_SGI_TARGET_LIST_OTHERS then
    sgirDispatch vm (data &&& GIC_DIST_SGI_INTID_MASK)
      (((((1 <<< vm.num_vcpus) - 1) % 0x10000) &&& not32 (1 <<< vcpu_id)) % 0x10000) vgic
  else if (data &&& GIC_DIST_SGI_TARGET_LIST_FILTER_MASK) >>> GIC_DIST_SGI_TARGET_LIST_FILTER_SHIFT
      = GIC_DIST_SGI_TARGET_SELF then
    sgirDispatch vm (data &&& GIC_DIST_SGI_INTID_MASK) ((1 <<< vcpu_id) % 0x10000) vgic
  else (vgic, [])

/-- `handle_vgic_dist_write_fault` from vdist.h, same case order as the
source switch.  The CTLR case uses the raw (unmasked) fault data, the
bit-iterated cases mask it first.  The `CPENDSGIR/SPENDSGIR` case contains
`assert(!"not implemented")` in the source; with assertions compiled out it
falls through to `ignore_fault` leaving the state untouched, which is how it
is modelled here.  The ICACTIVER0 case reproduces the source verbatim: it
stores `fault_emulate(fault, gic_dist->active0[vcpu_id])` — reading bank
`active0`, not `active_clr0` — into `active_clr0`. -/
def handle_vgic_dist_write_fault (vm : VM) (vcpu_id : Nat) (offset data mask : Nat)
    (vgic : Vgic) : WriteOut :=
  if offset ≤ 0x003 then
    if data = GIC_ENABLED then { res := .handled, vgic := { vgic with dist := (vgic_dist_enable vgic.dist).2 }, injections := [] }
    else if data = 0 then { res := .handled, vgic := { vgic with dist := (vgic_dist_disable vgic.dist).2 }, injections := [] }
    else { res := .handled, vgic := vgic, injections := [] }
  else if offset ≤ 0x07F then { res := .handled, vgic := vgic, injections := [] }
  else if offset ≤ 0x083 then
    let d2 := { vgic.dist with irq_group0 := updf vgic.dist.irq_group0 vcpu_id (fault_emulate data mask (vgic.dist.irq_group0 vcpu_id)) }
    { res := .handled, vgic := { vgic with dist := d2 }, injections := [] }
  else if offset ≤ 0x0FF then
    let n := bankIdx offset GIC_DIST_IGROUPR1
    let d2 := { vgic.dist with irq_group := updf vgic.dist.irq_group n (fault_emulate data mask (vgic.dist.irq_group n)) }
    { res := .handled, vgic := { vgic with dist := d2 }, injections := [] }
  else if offset ≤ 0x17F then
    let g := forBits (data &&& mask)
      (fun b g => (vgic_dist_enable_irq g vcpu_id (b + (offset - GIC_DIST_ISENABLER0) * 8)).2) vgic
    { res := .handled, vgic := g, injections := [] }
  else if offset ≤ 0x1FF then
    let g := forBits (data &&& mask)
      (fun b g => (vgic_dist_disable_irq g vcpu_id (b + (offset - GIC_DIST_ICENABLER0) * 8)).2) vgic
    { res := .handled, vgic := g, injections := [] }
  else if offset ≤ 0x27F then
    let g := forBits (data &&& mask)
      (fun b g => (vgic_dist_set_pending_irq g vcpu_id (b + (offset - GIC_DIST_ISPENDR0) * 8)).2) vgic
    { res := .handled, vgic := g, injections := [] }
  else if offset ≤ 0x2FF then
    let g := forBits (data &&& mask)
      (fun b g => (vgic_dist_clr_pending_irq g vcpu_id (b + (offset - 0x280) * 8)).2) vgic
    { res := .handled, vgic := g, injections := [] }
  else if offset ≤ 0x303 then
    let d2 := { vgic.dist with active0 := updf vgic.dist.active0 vcpu_id (fault_emulate data mask (vgic.dist.active0 vcpu_id)) }
    { res := .handled, vgic := { vgic with dist := d2 }, injections := [] }
  else if offset ≤ 0x37F then
    let n := bankIdx offset GIC_DIST_ISACTIVER1
    let d2 := { vgic.dist with active := updf vgic.dist.active n (fault_emulate data mask (vgic.dist.active n)) }
    { res := .handled, vgic := { vgic with dist := d2 }, injections := [] }
  else if offset ≤ 0x383 then
    let d2 := { vgic.dist with active_clr0 := updf vgic.dist.active_clr0 vcpu_id (fault_emulate data mask (vgic.dist.active0 vcpu_id)) }
    { res := .handled, vgic := { vgic with dist := d2 }, injections := [] }
  else if offset ≤ 0x3FF then
    let n := bankIdx offset GIC_DIST_ICACTIVER1
    let d2 := { vgic.dist with active_clr := updf vgic.dist.active_clr n (fault_emulate data mask (vgic.dist.active_clr n)) }
    { res := .handled, vgic := { vgic with dist := d2 }, injections := [] }
  else if offset ≤ 0xEFF then { res := .handled, vgic := vgic, injections := [] }
  else if offset ≤ 0xF03 then
    { res := .handled, vgic := (writeSGIR vm vcpu_id data vgic).1,
      injections := (writeSGIR vm vcpu_id data vgic).2 }
  else { res := .handled, vgic := vgic, injections := [] }

/-- `handle_vgic_dist_fault` from vdist.h: dispatch on the fault direction. -/
def handle_vgic_dist_fault (vm : VM) (vcpu_id : Nat) (is_read : Bool)
    (offset data mask : Nat) (vgic : Vgic) : Vgic :=
  if is_read then (handle_vgic_dist_read_fault vgic vcpu_id offset mask).vgic
  else (handle_vgic_dist_write_fault vm vcpu_id offset data mask vgic).vgic

/-! ### Initial (all-zero) state -/

def initDist : GicDistMap where
  enable := 0
  ic_type := 0
  dist_ident := 0
  irq_group0 := fun _ => 0
  irq_group := fun _ => 0
  enable_set0 := fun _ => 0
  enable_set := fun _ => 0
  enable_clr0 := fun _ => 0
  enable_clr := fun _ => 0
  pending_set0 := fun _ => 0
  pending_set := fun _ => 0
  pending_clr0 := fun _ => 0
  pending_clr := fun _ => 0
  active0 := fun _ => 0
  active := fun _ => 0
  active_clr0 := fun _ => 0
  active_clr := fun _ => 0
  priority0 := fun _ _ => 0
  priority := fun _ => 0
  targets0 := fun _ _ => 0
  targets := fun _ => 0
  config := fun _ => 0
  spi := fun _ => 0
  sgi_control := 0
  sgi_pending_clr := fun _ _ => 0
  sgi_pending_set := fun _ _ => 0
  periph_id := fun _ => 0

def initQueue : IrqQueue where
  irqs := fun _ => none
  head := 0
  tail := 0

/-- The vGIC after `virq_init` and distributor reset: empty handler tables,
empty queues, free list registers, all-zero distributor shadow. -/
def initVgic : Vgic where
  lr_shadow := fun _ _ => none
  irq_queue := fun _ => initQueue
  sgi_ppi_irq := fun _ _ => none
  virqs := List.replicate MAX_VIRQS none
  dist := initDist

/-! ### Abstractions used to state the claims -/

/-- Number of handlers currently parked in the ring buffer:
`(tail - head) mod MAX_IRQ_QUEUE_LEN`. -/
def queueCount (q : IrqQueue) : Nat :=
  (MAX_IRQ_QUEUE_LEN + q.tail - q.head) % MAX_IRQ_QUEUE_LEN

/-- The queued entries in FIFO (arrival) order, oldest first. -/
def queueList (q : IrqQueue) : List (Option VirqHandle) :=
  (List.range (queueCount q)).map (fun k => q.irqs ((q.head + k) % MAX_IRQ_QUEUE_LEN))

/-- Word whose set bits are the set bits of `W` with positions in
`[s, s + k)`; the portion of `W` consumed by a `forBits` run over that
window. -/
def bitsIn (W : Nat) : Nat → Nat → Nat
  | _, 0 => 0
  | s, k + 1 => (if W.testBit s then 1 <<< s else 0) ||| bitsIn W (s + 1) k

/-- A sequence of `virq_add` registrations (vcpu id, handler) applied in
order. -/
def applyRegs (vgic : Vgic) (regs : List (Nat × VirqHandle)) : Vgic :=
  regs.foldl (fun g p => (virq_add p.1 g p.2).2) vgic

/-- SGI/PPI table invariant: every registered handler sits at the table
index equal to its own `virq` field. -/
def sgiPpiConsistent (vgic : Vgic) : Prop :=
  ∀ v i h, vgic.sgi_ppi_irq v i = some h → h.virq = i

/-! ### Concrete states used by witnesses and counterexamples -/

/-- A single-vCPU VM with the vCPU online. -/
def vmOne : VM := ⟨1, fun _ => true⟩

/-- State with an SPI handler registered for virq 32, the distributor
enabled, and IRQ 32 enabled and already pending on vCPU 0. -/
def pendingSpiSt : Vgic :=
  let g1 := (virq_add 0 initVgic ⟨32, 7⟩).2
  let g2 := { g1 with dist := gic_dist_enable g1.dist }
  let g3 := { g2 with dist := set_enable g2.dist 32 true 0 }
  { g3 with dist := set_pending g3.dist 32 true 0 }

/-- State in which SGI 0 is enabled on vCPU 0 (a guest can do this through
an ISENABLER0 write; `vgic_dist_enable_irq` sets the bit even without a
registered handler). -/
def sgi0EnabledSt : Vgic := (vgic_dist_enable_irq initVgic 0 0).2

/-- State in which SPI 32 is enabled (a guest reaches it by writing bit 0 of
ISENABLER1): bit 0 of global enable array cell `IRQ_IDX(32) = 1` is set. -/
def irq32EnabledSt : Vgic := (vgic_dist_enable_irq initVgic 0 32).2

/-! ## Helper lemmas -/

theorem updf_same {α : Type} (f : Nat → α) (i : Nat) (v : α) : updf f i v i = v := by
  simp [updf]

theorem updf_other {α : Type} (f : Nat → α) (i : Nat) (v : α) (j : Nat) (h : j ≠ i) :
    updf f i v j = f j := by
  simp [updf, h]

theorem mask32_eq_two_pow_sub_one : (0xFFFFFFFF : Nat) = 2 ^ 32 - 1 := by norm_num

theorem testBit_mask32 (i : Nat) : (0xFFFFFFFF : Nat).testBit i = decide (i < 32) := by
  rw [mask32_eq_two_pow_sub_one, Nat.testBit_two_pow_sub_one]

theorem testBit_not32 (x i : Nat) : (not32 x).testBit i = ((x.testBit i).xor (decide (i < 32))) := by
  rw [not32, Nat.testBit_xor, testBit_mask32]

theorem testBit_high_false {x : Nat} (hx : x < 2 ^ 32) {i : Nat} (hi : 32 ≤ i) :
    x.testBit i = false :=
  Nat.testBit_lt_two_pow (lt_of_lt_of_le hx (Nat.pow_le_pow_right (by norm_num) hi))

theorem land_mask32 {x : Nat} (hx : x < 2 ^ 32) : x &&& 0xFFFFFFFF = x := by
  apply Nat.eq_of_testBit_eq
  intro i
  rw [Nat.testBit_land, testBit_mask32]
  by_cases h : i < 32
  · simp [h]
  · have hhi := testBit_high_false hx (show 32 ≤ i by omega)
    simp [h, hhi]

theorem land_not32_land_not32 (e : Nat) {a b : Nat} (ha : a < 2 ^ 32) (hb : b < 2 ^ 32) :
    e &&& not32 a &&& not32 b = e &&& not32 (a ||| b) := by
  apply Nat.eq_of_testBit_eq
  intro i
  rw [Nat.testBit_land, Nat.testBit_land, Nat.testBit_land, testBit_not32, testBit_not32,
    testBit_not32, Nat.testBit_lor]
  by_cases h : i < 32
  · simp only [h, decide_True]
    cases e.testBit i <;> cases a.testBit i <;> cases b.testBit i <;> rfl
  · have hha := testBit_high_false ha (show 32 ≤ i by omega)
    have hhb := testBit_high_false hb (show 32 ≤ i by omega)
    simp [hha, hhb, h]

theorem IRQ_BIT_lt (irq : Nat) : IRQ_BIT irq < 2 ^ 32 := by
  rw [IRQ_BIT, Nat.one_shiftLeft]
  exact Nat.pow_lt_pow_right (by norm_num) (by omega)

theorem bitsIn_lt (W : Nat) : ∀ s k, s + k ≤ 32 → bitsIn W s k < 2 ^ 32 := by
  intro s k
  induction k generalizing s with
  | zero => intro _; simp [bitsIn]
  | succ k ih =>
    intro hsk
    rw [bitsIn]
    apply Nat.bitwise_lt_two_pow
    · split
      · rw [Nat.one_shiftLeft]
        exact Nat.pow_lt_pow_right (by norm_num) (by omega)
      · positivity
    · exact ih (s + 1) (by omega)

theorem testBit_bitsIn (W : Nat) : ∀ s k i, (bitsIn W s k).testBit i =
    (decide (s ≤ i) && decide (i < s + k) && W.testBit i) := by
  intro s k
  induction k generalizing s with
  | zero =>
    intro i
    by_cases h1 : s ≤ i
    · simp [bitsIn, show ¬ (i < s + 0) by omega]
    · simp [bitsIn, h1]
  | succ k ih =>
    intro i
    have hfirst : (if W.testBit s then 1 <<< s else 0).testBit i =
        (decide (i = s) && W.testBit i) := by
      by_cases hsi : i = s
      · subst hsi
        cases hW : W.testBit i <;> simp [hW, Nat.one_shiftLeft, Nat.testBit_two_pow]
      · have hsi' : s ≠ i := fun hh => hsi hh.symm
        cases hW : W.testBit s
        · simp [hW, hsi]
        · simp [hW, Nat.one_shiftLeft, Nat.testBit_two_pow, hsi, hsi']
    rw [bitsIn, Nat.testBit_lor, ih (s + 1), hfirst]
    cases hWi : W.testBit i
    · simp
    · simp only [Bool.and_true]
      rw [← Bool.decide_and, ← Bool.decide_and, ← Bool.decide_or]
      exact decide_eq_decide.mpr (by omega)

theorem bitsIn_all (W : Nat) (hW : W < 2 ^ 32) : bitsIn W 0 32 = W := by
  apply Nat.eq_of_testBit_eq
  intro i
  rw [testBit_bitsIn]
  by_cases h : i < 32
  · simp [h]
  · have hhi := testBit_high_false hW (show 32 ≤ i by omega)
    simp [h, hhi]

/-! ## Claim theorems -/

/-- Claim C1: the paired-bank invariant (set view equals clear view for
enable, pending and active) is supposed to hold in every reachable state,
but the code breaks the active pair: starting from the all-zero distributor
shadow, a single guest write of 1 (full data mask) to ISACTIVER0 stores 1
into `active0[0]` while `active_clr0[0]` stays 0, so the set-view and
clear-view bits of SGI 0's active state differ.  (The ICACTIVER0 write case
compounds this by reading bank `active0` where `active_clr0` was meant,
vdist.h line 507.) -/
theorem C1_active_pair_broken_by_isactiver0_write :
    ((handle_vgic_dist_write_fault vmOne 0 GIC_DIST_ISACTIVER0 1 0xFFFFFFFF
        initVgic).vgic.dist.active0 0 = 1) ∧
    ((handle_vgic_dist_write_fault vmOne 0 GIC_DIST_ISACTIVER0 1 0xFFFFFFFF
        initVgic).vgic.dist.active_clr0 0 = 0) := by
  constructor <;> rfl

/-- Claim C2: `vgic_dist_set_pending_irq` (and hence the public
`vm_inject_irq`) returns -1 and leaves the whole vGIC state — distributor
shadow, overflow queues and `lr_shadow` — unchanged whenever no handler is
registered for the IRQ on that vCPU, or the distributor is globally
disabled, or the IRQ's enable bit is clear for that vCPU. -/
theorem C2_set_pending_rejects_without_mutation (vgic : Vgic) (vcpu_id irq : Nat)
    (h : virq_find_irq_data vgic vcpu_id irq = none ∨
         gic_dist_is_enabled vgic.dist = false ∨
         is_enabled vgic.dist irq vcpu_id = false) :
    vgic_dist_set_pending_irq vgic vcpu_id irq = (-1, vgic) ∧
    vm_inject_irq vgic vcpu_id irq = (-1, vgic) := by
  have main : vgic_dist_set_pending_irq vgic vcpu_id irq = (-1, vgic) := by
    unfold vgic_dist_set_pending_irq
    rcases h with h | h | h
    · rw [h]
    · cases hf : virq_find_irq_data vgic vcpu_id irq with
      | none => rfl
      | some vd => simp [h]
    · cases hf : virq_find_irq_data vgic vcpu_id irq with
      | none => rfl
      | some vd => simp [h]
  exact ⟨main, main⟩

/-- Witness for C2 at a concrete input: in the initial state no handler is
registered for IRQ 40, and set-pending returns -1 leaving the state as it
was. -/
theorem C2_witness :
    virq_find_irq_data initVgic 0 40 = none ∧
    vgic_dist_set_pending_irq initVgic 0 40 = (-1, initVgic) := by
  have hf : virq_find_irq_data initVgic 0 40 = none := by decide
  exact ⟨hf, (C2_set_pending_rejects_without_mutation initVgic 0 40 (Or.inl hf)).1⟩

/-- Claim C3: set-pending is idempotent.  With a handler registered (at its
own virq), the distributor enabled and the IRQ enabled, if the IRQ is
already pending then `vgic_dist_set_pending_irq` returns 0 and the state —
including the overflow queue and `lr_shadow` — is completely unchanged, so
nothing is enqueued and `load_list_reg` is not reached. -/
theorem C3_set_pending_idempotent (vgic : Vgic) (vcpu_id irq : Nat) (hdl : VirqHandle)
    (hfind : virq_find_irq_data vgic vcpu_id irq = some hdl)
    (hvirq : hdl.virq = irq)
    (hdist : gic_dist_is_enabled vgic.dist = true)
    (hen : is_enabled vgic.dist irq vcpu_id = true)
    (hpend : is_pending vgic.dist irq vcpu_id = true) :
    vgic_dist_set_pending_irq vgic vcpu_id irq = (0, vgic) := by
  unfold vgic_dist_set_pending_irq
  rw [hfind]
  simp [hdist, hen, hvirq, hpend]

/-- Witness for C3 at a concrete input: SPI 32 registered, enabled and
pending on vCPU 0; a second set-pending returns 0 with the state
untouched. -/
theorem C3_witness :
    virq_find_irq_data pendingSpiSt 0 32 = some ⟨32, 7⟩ ∧
    is_pending pendingSpiSt.dist 32 0 = true ∧
    vgic_dist_set_pending_irq pendingSpiSt 0 32 = (0, pendingSpiSt) := by
  refine ⟨by decide, by decide, ?_⟩
  exact C3_set_pending_idempotent pendingSpiSt 0 32 ⟨32, 7⟩ (by decide) rfl
    (by decide) (by decide) (by decide)

/-- Claim C4 counterexample: `virq_spi_add` performs no duplicate check.
Registering two handlers with the same `virq = 32` in the empty table
succeeds both times (second registration also returns 0, it does not fail),
leaving two distinct non-null slots whose `virq` fields are equal — the
claimed uniqueness invariant is violated. -/
theorem C4_counterexample :
    ((virq_add 0 (virq_add 0 initVgic ⟨32, 1⟩).2 ⟨32, 2⟩).1 = 0) ∧
    ((virq_add 0 (virq_add 0 initVgic ⟨32, 1⟩).2 ⟨32, 2⟩).2.virqs[0]? =
      some (some ⟨32, 1⟩)) ∧
    ((virq_add 0 (virq_add 0 initVgic ⟨32, 1⟩).2 ⟨32, 2⟩).2.virqs[1]? =
      some (some ⟨32, 2⟩)) := by
  refine ⟨by decide, by decide, by decide⟩

/-- Claim C4 (amended): `virq_spi_add` simply stores the handler in the
first empty slot of the global table regardless of the `virq` values
already present — it fails (returns -1, leaving the table unchanged) if and
only if the table has no empty slot; duplicate `virq` registrations are not
prevented. -/
theorem C4_spi_add_first_free_slot (vgic : Vgic) (hdl : VirqHandle) :
    ((virq_spi_add vgic hdl).1 = -1 ↔ ∀ o ∈ vgic.virqs, o ≠ none) ∧
    ((virq_spi_add vgic hdl).1 = -1 → (virq_spi_add vgic hdl).2 = vgic) ∧
    (∀ pre post, vgic.virqs = pre ++ none :: post → (∀ o ∈ pre, o ≠ none) →
      virq_spi_add vgic hdl = (0, { vgic with virqs := pre ++ some hdl :: post })) := by
  have hnone : ∀ (l : List (Option VirqHandle)),
      (spiAdd l hdl = none ↔ ∀ o ∈ l, o ≠ none) := by
    intro l
    induction l with
    | nil => simp [spiAdd]
    | cons o rest ih =>
      cases o with
      | none => simp [spiAdd]
      | some x =>
        simp [spiAdd, ih]
  have hins : ∀ (pre post : List (Option VirqHandle)), (∀ o ∈ pre, o ≠ none) →
      spiAdd (pre ++ none :: post) hdl = some (pre ++ some hdl :: post) := by
    intro pre
    induction pre with
    | nil => intro post _; simp [spiAdd]
    | cons o rest ih =>
      intro post hpre
      cases o with
      | none => exact absurd rfl (hpre none (by simp))
      | some x =>
        have := ih post (fun o ho => hpre o (by simp [ho]))
        simp [spiAdd, this]
  refine ⟨?_, ?_, ?_⟩
  · rw [← hnone vgic.virqs]
    unfold virq_spi_add
    cases hs : spiAdd vgic.virqs hdl with
    | some t => simp [hs]
    | none => simp [hs]
  · unfold virq_spi_add
    cases hs : spiAdd vgic.virqs hdl with
    | some t => simp
    | none => simp
  · intro pre post hsplit hpre
    unfold virq_spi_add
    rw [hsplit, hins pre post hpre]

/-- Witness for C4's amended statement at a concrete input: the initial
table is `none` followed by 199 empty slots, and registration fills slot
0. -/
theorem C4_witness :
    initVgic.virqs = [] ++ none :: List.replicate 199 none ∧
    virq_spi_add initVgic ⟨32, 1⟩ =
      (0, { initVgic with virqs := [] ++ some ⟨32, 1⟩ :: List.replicate 199 none }) := by
  refine ⟨by decide, ?_⟩
  exact (C4_spi_add_first_free_slot initVgic ⟨32, 1⟩).2.2 [] (List.replicate 199 none)
    (by decide) (by simp)

/-- Claim C5: `vgic_dist_disable_irq` ignores SGIs — for `irq < 16` the
state is returned unchanged (so an ISENABLER0 read afterwards returns the
same word as before) — and for `irq ≥ 16` it clears exactly the enable bit
of that IRQ in both the set and the clear bank (the banked words for PPIs,
the global words for SPIs) and changes nothing else. -/
theorem C5_disable_irq_frame (vgic : Vgic) (vcpu_id irq mask : Nat) :
    (irq < NUM_SGI_VIRQS →
      vgic_dist_disable_irq vgic vcpu_id irq = (0, vgic) ∧
      handle_vgic_dist_read_fault (vgic_dist_disable_irq vgic vcpu_id irq).2 vcpu_id
          GIC_DIST_ISENABLER0 mask =
        handle_vgic_dist_read_fault vgic vcpu_id GIC_DIST_ISENABLER0 mask) ∧
    (NUM_SGI_VIRQS ≤ irq → irq < GIC_SPI_IRQ_MIN →
      vgic_dist_disable_irq vgic vcpu_id irq =
        (0, { vgic with dist := { vgic.dist with
                enable_set0 := updf vgic.dist.enable_set0 vcpu_id
                  (vgic.dist.enable_set0 vcpu_id &&& not32 (IRQ_BIT irq)),
                enable_clr0 := updf vgic.dist.enable_clr0 vcpu_id
                  (vgic.dist.enable_clr0 vcpu_id &&& not32 (IRQ_BIT irq)) } })) ∧
    (GIC_SPI_IRQ_MIN ≤ irq →
      vgic_dist_disable_irq vgic vcpu_id irq =
        (0, { vgic with dist := { vgic.dist with
                enable_set := updf vgic.dist.enable_set (IRQ_IDX irq)
                  (vgic.dist.enable_set (IRQ_IDX irq) &&& not32 (IRQ_BIT irq)),
                enable_clr := updf vgic.dist.enable_clr (IRQ_IDX irq)
                  (vgic.dist.enable_clr (IRQ_IDX irq) &&& not32 (IRQ_BIT irq)) } })) := by
  refine ⟨?_, ?_, ?_⟩
  · intro h
    have hcond : ¬ (NUM_SGI_VIRQS ≤ irq) := by omega
    constructor
    · simp [vgic_dist_disable_irq, hcond]
    · simp [vgic_dist_disable_irq, hcond]
  · intro h1 h2
    have hcond : NUM_SGI_VIRQS ≤ irq := h1
    have hsgi : irq < GIC_SPI_IRQ_MIN := h2
    simp [vgic_dist_disable_irq, hcond, set_enable, hsgi, set_sgi_ppi_enable]
  · intro h1
    have hcond : NUM_SGI_VIRQS ≤ irq := by
      have : NUM_SGI_VIRQS ≤ GIC_SPI_IRQ_MIN := by decide
      omega
    have hsgi : ¬ (irq < GIC_SPI_IRQ_MIN) := by omega
    simp [vgic_dist_disable_irq, hcond, set_enable, hsgi, set_spi_enable]

/-- Witness for C5 at concrete inputs: disabling SGI 3 is a no-op, and
disabling PPI 20 really takes the second branch. -/
theorem C5_witness :
    vgic_dist_disable_irq pendingSpiSt 0 3 = (0, pendingSpiSt) ∧
    (3 : Nat) < NUM_SGI_VIRQS ∧ NUM_SGI_VIRQS ≤ (20 : Nat) := by
  refine ⟨((C5_disable_irq_frame pendingSpiSt 0 3 0).1 (by decide)).1, by decide, by decide⟩

/-- Claim C10: a read fault whose offset lies in any of the reserved or
implementation-defined ranges known to the dispatch switch writes 0 (masked)
into the fault data register, advances the fault, returns FAULT_HANDLED and
leaves the vGIC state unchanged. -/
theorem C10_reserved_reads_as_zero (vgic : Vgic) (vcpu_id offset mask : Nat)
    (h : (0x00C ≤ offset ∧ offset ≤ 0x01F) ∨ (0x020 ≤ offset ∧ offset ≤ 0x03F) ∨
         (0x040 ≤ offset ∧ offset ≤ 0x07F) ∨ (0x7FC ≤ offset ∧ offset ≤ 0x7FF) ∨
         (0xBFC ≤ offset ∧ offset ≤ 0xBFF) ∨ (0xDE8 ≤ offset ∧ offset ≤ 0xEFF) ∨
         (0xF04 ≤ offset ∧ offset ≤ 0xF0F) ∨ (0xF30 ≤ offset ∧ offset ≤ 0xFBF)) :
    handle_vgic_dist_read_fault vgic vcpu_id offset mask =
      { res := .handled, advanced := true, data_out := some 0, vgic := vgic } := by
  have hp : readPick vgic.dist vcpu_id offset = some 0 := by
    rcases h with ⟨h1, h2⟩ | ⟨h1, h2⟩ | ⟨h1, h2⟩ | ⟨h1, h2⟩ | ⟨h1, h2⟩ | ⟨h1, h2⟩ |
      ⟨h1, h2⟩ | ⟨h1, h2⟩ <;>
    · unfold readPick
      repeat rw [if_neg (by omega)]
      rw [if_pos (by omega)]
  unfold handle_vgic_dist_read_fault
  rw [hp]
  simp

theorem land63_eq_mod (x : Nat) : x &&& 63 = x % 64 := by
  apply Nat.eq_of_testBit_eq
  intro j
  have h63 : (63 : Nat) = 2 ^ 6 - 1 := by norm_num
  have h64 : (64 : Nat) = 2 ^ 6 := by norm_num
  rw [Nat.testBit_land, h63, Nat.testBit_two_pow_sub_one, h64, Nat.testBit_mod_two_pow]
  exact Bool.and_comm (x.testBit j) (decide (j < 6))

theorem IRQ_QUEUE_NEXT_eq_mod (i : Nat) : IRQ_QUEUE_NEXT i = (i + 1) % 64 :=
  land63_eq_mod (i + 1)

/-- Claim C8: overflow ring discipline.  With well-formed indices
(`head`, `tail < MAX_IRQ_QUEUE_LEN`): `vgic_irq_enqueue` returns -1 exactly
when `IRQ_QUEUE_NEXT tail = head` (full); a successful enqueue appends the
handler at the back of the FIFO abstraction `queueList`; `vgic_irq_dequeue`
returns `none` exactly when `head = tail` (given the queued slots are
non-null); a dequeue on a non-empty queue pops the front of `queueList`
(the oldest still-queued handler); and the queue never holds
`MAX_IRQ_QUEUE_LEN` entries. -/
theorem C8_ring_buffer_fifo (vgic : Vgic) (vcpu_id : Nat) (hdl : VirqHandle)
    (hh : (vgic.irq_queue vcpu_id).head < MAX_IRQ_QUEUE_LEN)
    (ht : (vgic.irq_queue vcpu_id).tail < MAX_IRQ_QUEUE_LEN) :
    ((vgic_irq_enqueue vgic vcpu_id hdl).1 = -1 ↔
      IRQ_QUEUE_NEXT (vgic.irq_queue vcpu_id).tail = (vgic.irq_queue vcpu_id).head) ∧
    (IRQ_QUEUE_NEXT (vgic.irq_queue vcpu_id).tail ≠ (vgic.irq_queue vcpu_id).head →
      queueList ((vgic_irq_enqueue vgic vcpu_id hdl).2.irq_queue vcpu_id) =
        queueList (vgic.irq_queue vcpu_id) ++ [some hdl]) ∧
    ((∀ k, k < queueCount (vgic.irq_queue vcpu_id) →
        (vgic.irq_queue vcpu_id).irqs
          (((vgic.irq_queue vcpu_id).head + k) % MAX_IRQ_QUEUE_LEN) ≠ none) →
      ((vgic_irq_dequeue vgic vcpu_id).1 = none ↔
        (vgic.irq_queue vcpu_id).head = (vgic.irq_queue vcpu_id).tail)) ∧
    ((vgic.irq_queue vcpu_id).head ≠ (vgic.irq_queue vcpu_id).tail →
      queueList (vgic.irq_queue vcpu_id) =
        (vgic_irq_dequeue vgic vcpu_id).1 ::
          queueList ((vgic_irq_dequeue vgic vcpu_id).2.irq_queue vcpu_id)) ∧
    queueCount (vgic.irq_queue vcpu_id) < MAX_IRQ_QUEUE_LEN := by
  have hM : MAX_IRQ_QUEUE_LEN = 64 := rfl
  rw [hM] at hh ht
  have hnext := IRQ_QUEUE_NEXT_eq_mod (vgic.irq_queue vcpu_id).tail
  refine ⟨?_, ?_, ?_, ?_, ?_⟩
  · simp only [vgic_irq_enqueue]
    by_cases hc : IRQ_QUEUE_NEXT (vgic.irq_queue vcpu_id).tail = (vgic.irq_queue vcpu_id).head
    · simp [hc]
    · simp [hc]
  · intro hc
    simp only [vgic_irq_enqueue]
    rw [if_neg hc]
    dsimp only
    rw [updf_same]
    rw [hnext] at hc
    have hcount2 : queueCount { vgic.irq_queue vcpu_id with
        irqs := updf (vgic.irq_queue vcpu_id).irqs (vgic.irq_queue vcpu_id).tail (some hdl),
        tail := IRQ_QUEUE_NEXT (vgic.irq_queue vcpu_id).tail } =
        queueCount (vgic.irq_queue vcpu_id) + 1 := by
      simp only [queueCount, MAX_IRQ_QUEUE_LEN, IRQ_QUEUE_NEXT_eq_mod]
      omega
    unfold queueList
    rw [hcount2, List.range_succ, List.map_append]
    congr 1
    · apply List.map_congr_left
      intro k hk
      rw [List.mem_range] at hk
      have hne : ((vgic.irq_queue vcpu_id).head + k) % MAX_IRQ_QUEUE_LEN ≠
          (vgic.irq_queue vcpu_id).tail := by
        simp only [MAX_IRQ_QUEUE_LEN]
        simp only [queueCount, MAX_IRQ_QUEUE_LEN] at hk
        omega
      dsimp only
      rw [updf_other _ _ _ _ hne]
    · have heq : ((vgic.irq_queue vcpu_id).head + queueCount (vgic.irq_queue vcpu_id)) %
          MAX_IRQ_QUEUE_LEN = (vgic.irq_queue vcpu_id).tail := by
        simp only [queueCount, MAX_IRQ_QUEUE_LEN]
        omega
      simp only [List.map_cons, List.map_nil]
      rw [heq, updf_same]
  · intro hwf
    simp only [vgic_irq_dequeue]
    by_cases hc : (vgic.irq_queue vcpu_id).head = (vgic.irq_queue vcpu_id).tail
    · rw [if_neg (by simpa using hc)]
      simp [hc]
    · rw [if_pos hc]
      dsimp only
      constructor
      · intro h0
        exfalso
        refine hwf 0 ?_ ?_
        · simp only [queueCount, MAX_IRQ_QUEUE_LEN]
          omega
        · rw [Nat.add_zero, Nat.mod_eq_of_lt (by omega)]
          exact h0
      · intro heq
        exact absurd heq hc
  · intro hc
    simp only [vgic_irq_dequeue]
    rw [if_pos hc]
    dsimp only
    rw [updf_same]
    simp only [queueList, queueCount, MAX_IRQ_QUEUE_LEN, IRQ_QUEUE_NEXT_eq_mod]
    obtain ⟨c', hcc⟩ :
        ∃ c', (64 + (vgic.irq_queue vcpu_id).tail - (vgic.irq_queue vcpu_id).head) % 64 =
          c' + 1 :=
      ⟨(64 + (vgic.irq_queue vcpu_id).tail - (vgic.irq_queue vcpu_id).head) % 64 - 1,
        by omega⟩
    rw [hcc]
    rw [show (64 + (vgic.irq_queue vcpu_id).tail -
        ((vgic.irq_queue vcpu_id).head + 1) % 64) % 64 = c' by omega]
    rw [List.range_succ_eq_map, List.map_cons, List.map_map]
    congr 1
    · dsimp only
      rw [Nat.add_zero, Nat.mod_eq_of_lt (by omega)]
    · apply List.map_congr_left
      intro k hk
      dsimp only [Function.comp]
      congr 1
      rw [Nat.mod_add_mod]
      omega
  · simp only [queueCount, MAX_IRQ_QUEUE_LEN]
    omega

/-- Witness for C8 at a concrete input: the initial queue (head = tail = 0)
is well-formed and holds fewer than `MAX_IRQ_QUEUE_LEN` entries. -/
theorem C8_witness : queueCount (initVgic.irq_queue 0) < MAX_IRQ_QUEUE_LEN :=
  (C8_ring_buffer_fifo initVgic 0 ⟨32, 1⟩ (by decide) (by decide)).2.2.2.2

theorem spiFind_virq : ∀ (l : List (Option VirqHandle)) (v : Nat) (hdl : VirqHandle),
    spiFind l v = some hdl → hdl.virq = v := by
  intro l
  induction l with
  | nil => intro v hdl h; cases h
  | cons o rest ih =>
    intro v hdl h
    cases o with
    | none => exact ih v hdl h
    | some x =>
      rw [spiFind] at h
      by_cases hx : x.virq = v
      · rw [if_pos hx] at h
        cases h
        exact hx
      · rw [if_neg hx] at h
        exact ih v hdl h

theorem virq_add_preserves_consistent (vcpu_id : Nat) (vgic : Vgic) (hdl : VirqHandle)
    (hinv : sgiPpiConsistent vgic) : sgiPpiConsistent (virq_add vcpu_id vgic hdl).2 := by
  unfold virq_add
  by_cases hlt : hdl.virq < GIC_SPI_IRQ_MIN
  · rw [if_pos hlt]
    unfold virq_sgi_ppi_add
    by_cases hocc : vgic.sgi_ppi_irq vcpu_id hdl.virq ≠ none
    · rw [if_pos hocc]
      exact hinv
    · rw [if_neg hocc]
      intro v i h hget
      dsimp only at hget
      by_cases hv : v = vcpu_id
      · subst hv
        rw [updf_same] at hget
        by_cases hi : i = hdl.virq
        · subst hi
          rw [updf_same] at hget
          cases hget
          rfl
        · rw [updf_other _ _ _ _ hi] at hget
          exact hinv v i h hget
      · rw [updf_other _ _ _ _ hv] at hget
        exact hinv v i h hget
  · rw [if_neg hlt]
    unfold virq_spi_add
    cases hs : spiAdd vgic.virqs hdl with
    | some t =>
      intro v i h hget
      exact hinv v i h hget
    | none => exact hinv

theorem applyRegs_consistent (regs : List (Nat × VirqHandle)) :
    ∀ (vgic : Vgic), sgiPpiConsistent vgic → sgiPpiConsistent (applyRegs vgic regs) := by
  induction regs with
  | nil => intro vgic h; exact h
  | cons p rest ih =>
    intro vgic h
    exact ih _ (virq_add_preserves_consistent p.1 vgic p.2 h)

/-- Claim C9: lookup consistency.  After any sequence of registrations
starting from the initial (empty) tables, any handler returned by
`virq_find_irq_data` for virq `v` has its `virq` field equal to `v`: the
SPI linear scan only returns matching entries, and `virq_sgi_ppi_add`
stores each SGI/PPI handler at the index equal to its own `virq` field, an
invariant preserved by every registration. -/
theorem C9_lookup_consistent (regs : List (Nat × VirqHandle)) (vcpu_id v : Nat)
    (hdl : VirqHandle)
    (hfind : virq_find_irq_data (applyRegs initVgic regs) vcpu_id v = some hdl) :
    hdl.virq = v := by
  have hinit : sgiPpiConsistent initVgic := by
    intro v i h hget
    cases hget
  have hinv := applyRegs_consistent regs initVgic hinit
  unfold virq_find_irq_data at hfind
  by_cases hlt : v < GIC_SPI_IRQ_MIN
  · rw [if_pos hlt] at hfind
    exact hinv vcpu_id v hdl hfind
  · rw [if_neg hlt] at hfind
    exact spiFind_virq _ v hdl hfind

/-- Witness for C9 at a concrete input: register PPI 5 then look it up. -/
theorem C9_witness :
    virq_find_irq_data (applyRegs initVgic [(0, ⟨5, 3⟩)]) 0 5 = some ⟨5, 3⟩ ∧
    (VirqHandle.mk 5 3).virq = 5 :=
  ⟨by decide, C9_lookup_consistent [(0, ⟨5, 3⟩)] 0 5 ⟨5, 3⟩ (by decide)⟩

theorem sgirDispatch_trace (vm : VM) (virq target_list : Nat) (vgic : Vgic) :
    (sgirDispatch vm virq target_list vgic).2 =
      (List.range vm.num_vcpus).filterMap
        (fun i => if target_list.testBit i && vm.online i then some (i, virq) else none) := by
  suffices h : ∀ (l : List Nat) (g : Vgic) (tr : List (Nat × Nat)),
      (l.foldl (fun acc i =>
        if target_list.testBit i && vm.online i then
          ((vm_inject_irq acc.1 i virq).2, acc.2 ++ [(i, virq)])
        else acc) (g, tr)).2 =
      tr ++ l.filterMap
        (fun i => if target_list.testBit i && vm.online i then some (i, virq) else none) by
    simpa [sgirDispatch] using h (List.range vm.num_vcpus) vgic []
  intro l
  induction l with
  | nil => intro g tr; simp
  | cons a l ih =>
    intro g tr
    rw [List.foldl_cons, List.filterMap_cons]
    by_cases hc : (target_list.testBit a && vm.online a) = true
    · rw [if_pos hc, ih, if_pos hc]
      simp
    · rw [if_neg hc, ih, if_neg hc]

theorem handle_write_sgir (vm : VM) (vcpu_id data mask : Nat) (vgic : Vgic) :
    handle_vgic_dist_write_fault vm vcpu_id GIC_DIST_SGIR data mask vgic =
      { res := .handled, vgic := (writeSGIR vm vcpu_id data vgic).1,
        injections := (writeSGIR vm vcpu_id data vgic).2 } := rfl

/-- Claim C7: SGIR dispatch.  For a guest write of `data` to SGIR the
injection trace is exactly one `inject_irq(i, virq)` call (with
`virq = data & 0xF`) for each vCPU index `i < num_vcpus`, in ascending
order, whose bit is set in the target mask and which is online, and no
other call; the target mask is the explicit CPU target list (bits 23:16)
for filter mode SPEC, `(1 <<< num_vcpus) - 1` with the requesting vCPU's
bit cleared for mode OTHERS, and exactly the requesting vCPU's bit for
mode SELF.  (The bounds `vcpu_id < num_vcpus ≤ 16` let the source's
`uint16_t` truncation of `target_list` be dropped.) -/
theorem C7_sgir_dispatch (vm : VM) (vgic : Vgic) (vcpu_id data mask : Nat)
    (hv : vcpu_id < vm.num_vcpus) (hn : vm.num_vcpus ≤ 16) :
    ((data &&& GIC_DIST_SGI_TARGET_LIST_FILTER_MASK) >>>
        GIC_DIST_SGI_TARGET_LIST_FILTER_SHIFT = GIC_DIST_SGI_TARGET_LIST_SPEC →
      (handle_vgic_dist_write_fault vm vcpu_id GIC_DIST_SGIR data mask vgic).injections =
        (List.range vm.num_vcpus).filterMap (fun i =>
          if ((data &&& GIC_DIST_SGI_CPU_TARGET_LIST_MASK) >>>
              GIC_DIST_SGI_CPU_TARGET_LIST_SHIFT).testBit i && vm.online i
          then some (i, data &&& GIC_DIST_SGI_INTID_MASK) else none)) ∧
    ((data &&& GIC_DIST_SGI_TARGET_LIST_FILTER_MASK) >>>
        GIC_DIST_SGI_TARGET_LIST_FILTER_SHIFT = GIC_DIST_SGI_TARGET_LIST_OTHERS →
      (handle_vgic_dist_write_fault vm vcpu_id GIC_DIST_SGIR data mask vgic).injections =
        (List.range vm.num_vcpus).filterMap (fun i =>
          if (((1 <<< vm.num_vcpus) - 1) &&& not32 (1 <<< vcpu_id)).testBit i && vm.online i
          then some (i, data &&& GIC_DIST_SGI_INTID_MASK) else none)) ∧
    ((data &&& GIC_DIST_SGI_TARGET_LIST_FILTER_MASK) >>>
        GIC_DIST_SGI_TARGET_LIST_FILTER_SHIFT = GIC_DIST_SGI_TARGET_SELF →
      (handle_vgic_dist_write_fault vm vcpu_id GIC_DIST_SGIR data mask vgic).injections =
        (List.range vm.num_vcpus).filterMap (fun i =>
          if (1 <<< vcpu_id).testBit i && vm.online i
          then some (i, data &&& GIC_DIST_SGI_INTID_MASK) else none)) := by
  have hpow : (1 <<< vm.num_vcpus) ≤ 0x10000 := by
    rw [Nat.one_shiftLeft]
    calc 2 ^ vm.num_vcpus ≤ 2 ^ 16 := Nat.pow_le_pow_right (by norm_num) hn
    _ = 0x10000 := by norm_num
  have hpowv : (1 <<< vcpu_id) < 0x10000 := by
    rw [Nat.one_shiftLeft]
    calc 2 ^ vcpu_id < 2 ^ 16 := Nat.pow_lt_pow_right (by norm_num) (by omega)
    _ = 0x10000 := by norm_num
  refine ⟨?_, ?_, ?_⟩
  · intro hmode
    rw [handle_write_sgir]
    dsimp only
    unfold writeSGIR
    rw [if_pos hmode, sgirDispatch_trace]
  · intro hmode
    rw [handle_write_sgir]
    dsimp only
    unfold writeSGIR
    rw [if_neg (by rw [hmode]; decide), if_pos hmode, sgirDispatch_trace]
    rw [Nat.mod_eq_of_lt (lt_of_le_of_lt Nat.and_le_left (by omega)),
      Nat.mod_eq_of_lt (by omega)]
  · intro hmode
    rw [handle_write_sgir]
    dsimp only
    unfold writeSGIR
    rw [if_neg (by rw [hmode]; decide), if_neg (by rw [hmode]; decide), if_pos hmode,
      sgirDispatch_trace]
    rw [Nat.mod_eq_of_lt hpowv]

/-- Witness for C7 at a concrete input: a two-vCPU VM, vCPU 1 writes
`(2 << 24) | 3` (mode SELF, SGI 3); exactly one injection, into vCPU 1. -/
theorem C7_witness :
    (handle_vgic_dist_write_fault ⟨2, fun _ => true⟩ 1 GIC_DIST_SGIR
        ((2 <<< 24) ||| 3) 0xFFFFFFFF initVgic).injections =
      (List.range 2).filterMap (fun i =>
        if (1 <<< 1).testBit i && true then some (i, ((2 <<< 24) ||| 3) &&& 0xF) else none) := by
  have h := (C7_sgir_dispatch ⟨2, fun _ => true⟩ initVgic 1 ((2 <<< 24) ||| 3) 0xFFFFFFFF
    (by norm_num) (by norm_num)).2.2 (by decide)
  simpa [GIC_DIST_SGI_INTID_MASK] using h

theorem not32_zero : not32 0 = 0xFFFFFFFF := by
  rw [not32]
  exact Nat.zero_xor _

theorem one_shiftLeft_lt_two_pow_32 {s : Nat} (hs : s < 32) : 1 <<< s < 2 ^ 32 := by
  rw [Nat.one_shiftLeft]
  exact Nat.pow_lt_pow_right (by norm_num) hs

theorem testBit_FFFF0000 (i : Nat) :
    (0xFFFF0000 : Nat).testBit i = (decide (16 ≤ i) && decide (i < 32)) := by
  have h : (0xFFFF0000 : Nat) = (2 ^ 16 - 1) <<< 16 := by decide
  rw [h, Nat.testBit_shiftLeft, Nat.testBit_two_pow_sub_one]
  by_cases h16 : 16 ≤ i
  · simp only [h16, decide_True, Bool.true_and]
    exact decide_eq_decide.mpr (by omega)
  · simp [h16]

theorem disable_noop_sgi (g : Vgic) (vcpu_id b : Nat) (hb : b < 16) :
    (vgic_dist_disable_irq g vcpu_id b).2 = g := by
  unfold vgic_dist_disable_irq
  rw [if_neg (by simp only [NUM_SGI_VIRQS]; omega)]

theorem disable_proj_banked (g : Vgic) (vcpu_id b : Nat) (hb1 : 16 ≤ b) (hb2 : b < 32) :
    ((vgic_dist_disable_irq g vcpu_id b).2).dist.enable_set0 vcpu_id =
      g.dist.enable_set0 vcpu_id &&& not32 (1 <<< b) := by
  have h16 : NUM_SGI_VIRQS ≤ b := by simp only [NUM_SGI_VIRQS]; omega
  have h32 : b < GIC_SPI_IRQ_MIN := by
    simp only [GIC_SPI_IRQ_MIN, NUM_SGI_VIRQS, NUM_PPI_VIRQS]; omega
  unfold vgic_dist_disable_irq
  rw [if_pos h16]
  dsimp only
  unfold set_enable
  rw [if_pos h32]
  unfold set_sgi_ppi_enable
  rw [if_neg Bool.false_ne_true]
  dsimp only
  rw [show IRQ_BIT b = 1 <<< b by simp only [IRQ_BIT]; congr 1; omega, updf_same]

theorem disable_proj_spi (g : Vgic) (vcpu_id b n : Nat) (hb : b < 32) (hn : 1 ≤ n) :
    ((vgic_dist_disable_irq g vcpu_id (b + 32 * n)).2).dist.enable_set n =
      g.dist.enable_set n &&& not32 (1 <<< b) := by
  have h16 : NUM_SGI_VIRQS ≤ b + 32 * n := by simp only [NUM_SGI_VIRQS]; omega
  have h32 : ¬ (b + 32 * n < GIC_SPI_IRQ_MIN) := by
    simp only [GIC_SPI_IRQ_MIN, NUM_SGI_VIRQS, NUM_PPI_VIRQS]; omega
  unfold vgic_dist_disable_irq
  rw [if_pos h16]
  dsimp only
  unfold set_enable
  rw [if_neg h32]
  unfold set_spi_enable
  rw [if_neg Bool.false_ne_true]
  dsimp only
  rw [show IRQ_IDX (b + 32 * n) = n by simp only [IRQ_IDX]; omega,
    show IRQ_BIT (b + 32 * n) = 1 <<< b by simp only [IRQ_BIT]; congr 1; omega,
    updf_same]

theorem icenabler_fold_spi (W vcpu_id n : Nat) (hn : 1 ≤ n) :
    ∀ (k : Nat), ∀ (s : Nat), s + k ≤ 32 → ∀ (g : Vgic), g.dist.enable_set n < 2 ^ 32 →
      ((List.range' s k).foldl (fun acc b =>
          if W.testBit b then (vgic_dist_disable_irq acc vcpu_id (b + 32 * n)).2 else acc)
        g).dist.enable_set n
      = g.dist.enable_set n &&& not32 (bitsIn W s k) := by
  intro k
  induction k with
  | zero =>
    intro s hs g hg
    rw [show List.range' s 0 = [] from rfl, List.foldl_nil,
      show bitsIn W s 0 = 0 from rfl, not32_zero, land_mask32 hg]
  | succ k ih =>
    intro s hs g hg
    rw [show List.range' s (k + 1) = s :: List.range' (s + 1) k from rfl, List.foldl_cons]
    by_cases hW : W.testBit s = true
    · rw [if_pos hW]
      have hstep := disable_proj_spi g vcpu_id s n (by omega) hn
      have hg2 : ((vgic_dist_disable_irq g vcpu_id (s + 32 * n)).2).dist.enable_set n
          < 2 ^ 32 := by
        rw [hstep]
        exact lt_of_le_of_lt Nat.and_le_left hg
      rw [ih (s + 1) (by omega) _ hg2, hstep,
        land_not32_land_not32 _ (one_shiftLeft_lt_two_pow_32 (by omega))
          (bitsIn_lt W (s + 1) k (by omega))]
      congr 1
      rw [bitsIn, if_pos hW]
    · rw [if_neg hW, ih (s + 1) (by omega) g hg]
      congr 1
      rw [bitsIn, if_neg hW, Nat.zero_or]

theorem icenabler_fold_banked (W vcpu_id : Nat) :
    ∀ (k : Nat), ∀ (s : Nat), s + k ≤ 32 → ∀ (g : Vgic),
      g.dist.enable_set0 vcpu_id < 2 ^ 32 →
      ((List.range' s k).foldl (fun acc b =>
          if W.testBit b then (vgic_dist_disable_irq acc vcpu_id b).2 else acc)
        g).dist.enable_set0 vcpu_id
      = g.dist.enable_set0 vcpu_id &&& not32 (bitsIn (W &&& 0xFFFF0000) s k) := by
  intro k
  induction k with
  | zero =>
    intro s hs g hg
    rw [show List.range' s 0 = [] from rfl, List.foldl_nil,
      show bitsIn (W &&& 0xFFFF0000) s 0 = 0 from rfl, not32_zero, land_mask32 hg]
  | succ k ih =>
    intro s hs g hg
    rw [show List.range' s (k + 1) = s :: List.range' (s + 1) k from rfl, List.foldl_cons]
    have hW' : (W &&& 0xFFFF0000).testBit s =
        (W.testBit s && (decide (16 ≤ s) && decide (s < 32))) := by
      rw [Nat.testBit_land, testBit_FFFF0000]
    by_cases hWs : W.testBit s = true
    · by_cases h16 : 16 ≤ s
      · rw [if_pos hWs]
        have hstep := disable_proj_banked g vcpu_id s h16 (by omega)
        have hg2 : ((vgic_dist_disable_irq g vcpu_id s).2).dist.enable_set0 vcpu_id
            < 2 ^ 32 := by
          rw [hstep]
          exact lt_of_le_of_lt Nat.and_le_left hg
        rw [ih (s + 1) (by omega) _ hg2, hstep,
          land_not32_land_not32 _ (one_shiftLeft_lt_two_pow_32 (by omega))
            (bitsIn_lt _ (s + 1) k (by omega))]
        congr 1
        rw [bitsIn, if_pos (by rw [hW', hWs]; simp [h16]; omega)]
      · rw [if_pos hWs, disable_noop_sgi g vcpu_id s (by omega),
          ih (s + 1) (by omega) g hg]
        congr 1
        rw [bitsIn, if_neg (by rw [hW']; simp [h16]), Nat.zero_or]
    · rw [if_neg hWs, ih (s + 1) (by omega) g hg]
      congr 1
      rw [bitsIn, if_neg (by rw [hW']; simp [hWs]), Nat.zero_or]

theorem handle_write_icenabler (vm : VM) (vcpu_id offset data mask : Nat) (vgic : Vgic)
    (h1 : 0x180 ≤ offset) (h2 : offset ≤ 0x1FF) :
    handle_vgic_dist_write_fault vm vcpu_id offset data mask vgic =
      { res := .handled,
        vgic := forBits (data &&& mask) (fun b g =>
          (vgic_dist_disable_irq g vcpu_id (b + (offset - GIC_DIST_ICENABLER0) * 8)).2) vgic,
        injections := [] } := by
  unfold handle_vgic_dist_write_fault
  repeat rw [if_neg (by omega)]
  rw [if_pos (by omega)]

theorem read_isenabler0 (vgic : Vgic) (vcpu_id offset mask : Nat)
    (h1 : 0x100 ≤ offset) (h2 : offset ≤ 0x103) :
    handle_vgic_dist_read_fault vgic vcpu_id offset mask =
      { res := .handled, advanced := true,
        data_out := some (vgic.dist.enable_set0 vcpu_id &&& mask), vgic := vgic } := by
  have hp : readPick vgic.dist vcpu_id offset = some (vgic.dist.enable_set0 vcpu_id) := by
    unfold readPick
    repeat rw [if_neg (by omega)]
    rw [if_pos (by omega)]
  unfold handle_vgic_dist_read_fault
  rw [hp]

theorem read_isenabler_n (vgic : Vgic) (vcpu_id offset mask : Nat)
    (h1 : 0x104 ≤ offset) (h2 : offset ≤ 0x17F) :
    handle_vgic_dist_read_fault vgic vcpu_id offset mask =
      { res := .handled, advanced := true,
        data_out := some (vgic.dist.enable_set (bankIdx offset GIC_DIST_ISENABLER1) &&& mask),
        vgic := vgic } := by
  have hp : readPick vgic.dist vcpu_id offset =
      some (vgic.dist.enable_set (bankIdx offset GIC_DIST_ISENABLER1)) := by
    unfold readPick
    repeat rw [if_neg (by omega)]
    rw [if_pos (by omega)]
  unfold handle_vgic_dist_read_fault
  rw [hp]

theorem disable_frame_spi (g : Vgic) (vcpu_id b n m : Nat) (hb : b < 32) (hn : 1 ≤ n)
    (hm : m ≠ n) :
    ((vgic_dist_disable_irq g vcpu_id (b + 32 * n)).2).dist.enable_set m =
      g.dist.enable_set m := by
  have h16 : NUM_SGI_VIRQS ≤ b + 32 * n := by simp only [NUM_SGI_VIRQS]; omega
  have h32 : ¬ (b + 32 * n < GIC_SPI_IRQ_MIN) := by
    simp only [GIC_SPI_IRQ_MIN, NUM_SGI_VIRQS, NUM_PPI_VIRQS]; omega
  unfold vgic_dist_disable_irq
  rw [if_pos h16]
  dsimp only
  unfold set_enable
  rw [if_neg h32]
  unfold set_spi_enable
  rw [if_neg Bool.false_ne_true]
  dsimp only
  rw [show IRQ_IDX (b + 32 * n) = n by simp only [IRQ_IDX]; omega]
  rw [updf_other _ _ _ _ hm]

theorem icenabler_fold_frame (W vcpu_id n m : Nat) (hn : 1 ≤ n) (hm : m ≠ n) :
    ∀ (k : Nat), ∀ (s : Nat), s + k ≤ 32 → ∀ (g : Vgic),
      ((List.range' s k).foldl (fun acc b =>
          if W.testBit b then (vgic_dist_disable_irq acc vcpu_id (b + 32 * n)).2 else acc)
        g).dist.enable_set m
      = g.dist.enable_set m := by
  intro k
  induction k with
  | zero =>
    intro s hs g
    rw [show List.range' s 0 = [] from rfl, List.foldl_nil]
  | succ k ih =>
    intro s hs g
    rw [show List.range' s (k + 1) = s :: List.range' (s + 1) k from rfl, List.foldl_cons]
    by_cases hW : W.testBit s = true
    · rw [if_pos hW, ih (s + 1) (by omega), disable_frame_spi g vcpu_id s n m (by omega) hn hm]
    · rw [if_neg hW, ih (s + 1) (by omega)]

/-- Claim C6 counterexample: the round-trip law fails twice over.
(i) ICENABLER0 and SGI bits: with SGI 0 enabled the prior ISENABLER0 read
returns 1; after a guest write of W = 1 (full mask) to ICENABLER0 the
ISENABLER0 read still returns 1, not `prior & ~W = 0`, because
`vgic_dist_disable_irq` ignores IRQs below 16.  (ii) The global banks are
off by one between read and write: with SPI 32 enabled (bit 0 of array
cell `IRQ_IDX(32) = 1`) the ISENABLER2 read returns 1, since the MMIO read
of architectural register n returns cell `GIC_DIST_REGN(offset, ISENABLER1)
= n - 1`; a guest write of W = 1 (full mask) to ICENABLER2 clears bits in
cell 2 only, so the subsequent ISENABLER2 read still returns 1, not
`prior & ~W = 0`. -/
theorem C6_counterexample :
    (handle_vgic_dist_read_fault sgi0EnabledSt 0 GIC_DIST_ISENABLER0
        0xFFFFFFFF).data_out = some 1 ∧
    (handle_vgic_dist_read_fault
        (handle_vgic_dist_write_fault vmOne 0 GIC_DIST_ICENABLER0 1 0xFFFFFFFF
          sgi0EnabledSt).vgic
        0 GIC_DIST_ISENABLER0 0xFFFFFFFF).data_out = some 1 ∧
    (handle_vgic_dist_read_fault irq32EnabledSt 0 (GIC_DIST_ISENABLER0 + 4 * 2)
        0xFFFFFFFF).data_out = some 1 ∧
    (handle_vgic_dist_read_fault
        (handle_vgic_dist_write_fault vmOne 0 (GIC_DIST_ICENABLER0 + 4 * 2) 1 0xFFFFFFFF
          irq32EnabledSt).vgic
        0 (GIC_DIST_ISENABLER0 + 4 * 2) 0xFFFFFFFF).data_out = some 1 ∧
    1 &&& not32 1 = 0 := by
  refine ⟨by decide, by decide, by decide, by decide, by decide⟩

/-- Claim C6 (amended): the claimed round trip survives only on the banked
register pair, and there with the SGI bits dropped: a full-mask write of W
to ICENABLER0 followed by an ISENABLER0 read returns
`prior_enabled & ~(W & 0xFFFF0000)` (SGIs cannot be disabled; third part).
For the global banks the MMIO read of ISENABLERn (n ≥ 1) returns array
cell n-1 while the ICENABLERn write clears bits in cell n = IRQ_IDX of
IRQs 32n..32n+31, so the ISENABLERn read is completely unchanged by the
ICENABLERn write (first part), and it is the ISENABLER(n+1) read whose
value goes from `prior_enabled` to `prior_enabled & ~W` (second part).
In each part the first conjunct pins `prior_enabled` as the value the same
read returned before the write. -/
theorem C6_icenabler_isenabler_roundtrip (vm : VM) (vgic : Vgic) (vcpu_id W n : Nat)
    (hW : W < 2 ^ 32) :
    (1 ≤ n → n ≤ 31 → vgic.dist.enable_set (n - 1) < 2 ^ 32 →
      (handle_vgic_dist_read_fault vgic vcpu_id (GIC_DIST_ISENABLER0 + 4 * n)
          0xFFFFFFFF).data_out = some (vgic.dist.enable_set (n - 1)) ∧
      (handle_vgic_dist_read_fault
          (handle_vgic_dist_write_fault vm vcpu_id (GIC_DIST_ICENABLER0 + 4 * n) W
            0xFFFFFFFF vgic).vgic
          vcpu_id (GIC_DIST_ISENABLER0 + 4 * n) 0xFFFFFFFF).data_out
        = some (vgic.dist.enable_set (n - 1))) ∧
    (1 ≤ n → n ≤ 30 → vgic.dist.enable_set n < 2 ^ 32 →
      (handle_vgic_dist_read_fault vgic vcpu_id (GIC_DIST_ISENABLER0 + 4 * (n + 1))
          0xFFFFFFFF).data_out = some (vgic.dist.enable_set n) ∧
      (handle_vgic_dist_read_fault
          (handle_vgic_dist_write_fault vm vcpu_id (GIC_DIST_ICENABLER0 + 4 * n) W
            0xFFFFFFFF vgic).vgic
          vcpu_id (GIC_DIST_ISENABLER0 + 4 * (n + 1)) 0xFFFFFFFF).data_out
        = some (vgic.dist.enable_set n &&& not32 W)) ∧
    (vgic.dist.enable_set0 vcpu_id < 2 ^ 32 →
      (handle_vgic_dist_read_fault vgic vcpu_id GIC_DIST_ISENABLER0
          0xFFFFFFFF).data_out = some (vgic.dist.enable_set0 vcpu_id) ∧
      (handle_vgic_dist_read_fault
          (handle_vgic_dist_write_fault vm vcpu_id GIC_DIST_ICENABLER0 W 0xFFFFFFFF
            vgic).vgic
          vcpu_id GIC_DIST_ISENABLER0 0xFFFFFFFF).data_out
        = some (vgic.dist.enable_set0 vcpu_id &&& not32 (W &&& 0xFFFF0000))) := by
  refine ⟨?_, ?_, ?_⟩
  · intro hn1 hn2 he
    have hbank : bankIdx (GIC_DIST_ISENABLER0 + 4 * n) GIC_DIST_ISENABLER1 = n - 1 := by
      simp only [bankIdx, GIC_DIST_ISENABLER0, GIC_DIST_ISENABLER1]
      omega
    constructor
    · rw [read_isenabler_n vgic vcpu_id _ _
        (by simp only [GIC_DIST_ISENABLER0]; omega)
        (by simp only [GIC_DIST_ISENABLER0]; omega)]
      dsimp only
      rw [hbank, land_mask32 he]
    · rw [handle_write_icenabler vm vcpu_id _ W 0xFFFFFFFF vgic
        (by simp only [GIC_DIST_ICENABLER0]; omega)
        (by simp only [GIC_DIST_ICENABLER0]; omega)]
      dsimp only
      rw [read_isenabler_n _ vcpu_id _ _
        (by simp only [GIC_DIST_ISENABLER0]; omega)
        (by simp only [GIC_DIST_ISENABLER0]; omega)]
      dsimp only
      rw [hbank, land_mask32 hW]
      have harith : ∀ b : Nat,
          b + (GIC_DIST_ICENABLER0 + 4 * n - GIC_DIST_ICENABLER0) * 8 = b + 32 * n := by
        intro b
        simp only [GIC_DIST_ICENABLER0]
        omega
      simp only [harith]
      unfold forBits
      rw [List.range_eq_range']
      have hframe := icenabler_fold_frame W vcpu_id n (n - 1) hn1 (by omega) 32 0
        (by omega) vgic
      dsimp only at hframe ⊢
      rw [hframe, land_mask32 he]
  · intro hn1 hn2 he
    have hbank : bankIdx (GIC_DIST_ISENABLER0 + 4 * (n + 1)) GIC_DIST_ISENABLER1 = n := by
      simp only [bankIdx, GIC_DIST_ISENABLER0, GIC_DIST_ISENABLER1]
      omega
    constructor
    · rw [read_isenabler_n vgic vcpu_id _ _
        (by simp only [GIC_DIST_ISENABLER0]; omega)
        (by simp only [GIC_DIST_ISENABLER0]; omega)]
      dsimp only
      rw [hbank, land_mask32 he]
    · rw [handle_write_icenabler vm vcpu_id _ W 0xFFFFFFFF vgic
        (by simp only [GIC_DIST_ICENABLER0]; omega)
        (by simp only [GIC_DIST_ICENABLER0]; omega)]
      dsimp only
      rw [read_isenabler_n _ vcpu_id _ _
        (by simp only [GIC_DIST_ISENABLER0]; omega)
        (by simp only [GIC_DIST_ISENABLER0]; omega)]
      dsimp only
      rw [hbank, land_mask32 hW]
      have harith : ∀ b : Nat,
          b + (GIC_DIST_ICENABLER0 + 4 * n - GIC_DIST_ICENABLER0) * 8 = b + 32 * n := by
        intro b
        simp only [GIC_DIST_ICENABLER0]
        omega
      simp only [harith]
      unfold forBits
      rw [List.range_eq_range']
      have hfold := icenabler_fold_spi W vcpu_id n hn1 32 0 (by omega) vgic he
      dsimp only at hfold ⊢
      rw [hfold, bitsIn_all W hW, land_mask32 (lt_of_le_of_lt Nat.and_le_left he)]
  · intro he
    constructor
    · rw [read_isenabler0 vgic vcpu_id _ _ (by simp only [GIC_DIST_ISENABLER0]; omega)
        (by simp only [GIC_DIST_ISENABLER0]; omega)]
      dsimp only
      rw [land_mask32 he]
    · rw [handle_write_icenabler vm vcpu_id _ W 0xFFFFFFFF vgic
        (by simp only [GIC_DIST_ICENABLER0]; omega)
        (by simp only [GIC_DIST_ICENABLER0]; omega)]
      dsimp only
      rw [read_isenabler0 _ vcpu_id _ _ (by simp only [GIC_DIST_ISENABLER0]; omega)
        (by simp only [GIC_DIST_ISENABLER0]; omega)]
      dsimp only
      rw [land_mask32 hW]
      have harith : ∀ b : Nat,
          b + (GIC_DIST_ICENABLER0 - GIC_DIST_ICENABLER0) * 8 = b := by
        intro b
        simp only [GIC_DIST_ICENABLER0]
        omega
      simp only [harith]
      unfold forBits
      rw [List.range_eq_range']
      have hfold := icenabler_fold_banked W vcpu_id 32 0 (by omega) vgic he
      dsimp only at hfold ⊢
      rw [hfold, bitsIn_all _ (lt_of_le_of_lt Nat.and_le_left hW),
        land_mask32 (lt_of_le_of_lt Nat.and_le_left he)]

/-- Witness for C6 at a concrete input: write W = 5 to ICENABLER1 in the
initial state; the touched word (array cell 1) is the one ISENABLER2 reads
back. -/
theorem C6_witness :
    (handle_vgic_dist_read_fault
        (handle_vgic_dist_write_fault vmOne 0 (GIC_DIST_ICENABLER0 + 4 * 1) 5 0xFFFFFFFF
          initVgic).vgic
        0 (GIC_DIST_ISENABLER0 + 4 * (1 + 1)) 0xFFFFFFFF).data_out =
      some (initVgic.dist.enable_set 1 &&& not32 5) :=
  ((C6_icenabler_isenabler_roundtrip vmOne initVgic 0 5 1 (by decide)).2.1
    (by decide) (by decide) (by decide)).2

/-- Witness for C10 at a concrete input: offset 0x00C (first reserved
range). -/
theorem C10_witness :
    handle_vgic_dist_read_fault initVgic 0 0x00C 0xFFFFFFFF =
      { res := .handled, advanced := true, data_out := some 0, vgic := initVgic } :=
  C10_reserved_reads_as_zero initVgic 0 0x00C 0xFFFFFFFF (Or.inl (by decide))

end VGicDist
